import Mathlib

/-!
Verification of the PUBGM traffic-news pipeline (scripts/fetch_news.py,
scripts/clean_news.py, scripts/fix_category_groups.py).

The Python code is shallowly embedded: dict-shaped news records become the
`NewsItem` structure, keyword tables become `List String` constants copied
verbatim from the source, and every classifier / merge / cleaning function
is translated into an executable Lean function.  Machine-level details that
the claims depend on (Python substring tests, `str.lower`, `str.strip`,
truthiness of strings, MD5 content hashing) are reproduced explicitly.
-/

/-! ## String primitives mirroring the Python operations used by the code -/

/-- Python `str.lower()` restricted to the ASCII range; every keyword table in
the repository only contains ASCII letters (plus caseless Korean text), for
which the two functions agree. -/
def lowerStr (s : String) : String := String.mk (s.toList.map Char.toLower)

/-- Helper for substring search: does `t` start with `p`? -/
def prefMatch : List Char → List Char → Bool
  | [], _ => true
  | _ :: _, [] => false
  | p :: ps, t :: ts => p == t && prefMatch ps ts

/-- Helper for substring search over the character list of the text. -/
def subMatch (pat : List Char) : List Char → Bool
  | [] => pat.isEmpty
  | t :: ts => prefMatch pat (t :: ts) || subMatch pat ts

/-- Python `pat in text` (substring containment). -/
def strHas (text pat : String) : Bool := subMatch pat.toList text.toList

/-- The ubiquitous Python idiom `keyword.lower() in text` mapped over a list. -/
def anyKw (kws : List String) (text : String) : Bool :=
  kws.any (fun kw => strHas text (lowerStr kw))

/-- Python `str.strip()` (whitespace from both ends). -/
def pyStrip (s : String) : String :=
  String.mk (((s.toList.dropWhile Char.isWhitespace).reverse.dropWhile
    Char.isWhitespace).reverse)

/-- Python slicing `s[:n]`. -/
def strTake (s : String) (n : Nat) : String := String.mk (s.toList.take n)

/-- Python `a if a else b` for an optional string (`None` and `''` are falsy). -/
def pyOr (o : Option String) (d : String) : String :=
  match o with
  | some s => if s = "" then d else s
  | none => d

/-! ## MD5 (hashlib.md5), computed over Nat with explicit mod 2^32

`get_cache_key` in fetch_news.py is `hashlib.md5(text.encode()).hexdigest()[:16]`.
The digest is reimplemented here so cache keys can be evaluated in proofs. -/

/-- Truncation to a 32-bit word. -/
def w32 (n : Nat) : Nat := n % 4294967296

/-- Bitwise complement on 32-bit words. -/
def notW (x : Nat) : Nat := x ^^^ 0xFFFFFFFF

/-- 32-bit left rotation (argument assumed < 2^32, 0 < s < 32). -/
def rotl (x s : Nat) : Nat := (w32 (x <<< s)) ||| (x >>> (32 - s))

/-- The 64 MD5 sine-derived constants `floor(2^32 * |sin(i+1)|)`. -/
def md5K : List Nat :=
  [0xd76aa478, 0xe8c7b756, 0x242070db, 0xc1bdceee,
   0xf57c0faf, 0x4787c62a, 0xa8304613, 0xfd469501,
   0x698098d8, 0x8b44f7af, 0xffff5bb1, 0x895cd7be,
   0x6b901122, 0xfd987193, 0xa679438e, 0x49b40821,
   0xf61e2562, 0xc040b340, 0x265e5a51, 0xe9b6c7aa,
   0xd62f105d, 0x02441453, 0xd8a1e681, 0xe7d3fbc8,
   0x21e1cde6, 0xc33707d6, 0xf4d50d87, 0x455a14ed,
   0xa9e3e905, 0xfcefa3f8, 0x676f02d9, 0x8d2a4c8a,
   0xfffa3942, 0x8771f681, 0x6d9d6122, 0xfde5380c,
   0xa4beea44, 0x4bdecfa9, 0xf6bb4b60, 0xbebfbc70,
   0x289b7ec6, 0xeaa127fa, 0xd4ef3085, 0x04881d05,
   0xd9d4d039, 0xe6db99e5, 0x1fa27cf8, 0xc4ac5665,
   0xf4292244, 0x432aff97, 0xab9423a7, 0xfc93a039,
   0x655b59c3, 0x8f0ccc92, 0xffeff47d, 0x85845dd1,
   0x6fa87e4f, 0xfe2ce6e0, 0xa3014314, 0x4e0811a1,
   0xf7537e82, 0xbd3af235, 0x2ad7d2bb, 0xeb86d391]

/-- Per-round left-rotation amounts. -/
def md5S : List Nat := [7, 12, 17, 22, 5, 9, 14, 20, 4, 11, 16, 23, 6, 10, 15, 21]

/-- Round function F/G/H/I selected by round index. -/
def md5F (i b c d : Nat) : Nat :=
  if i < 16 then (b &&& c) ||| (notW b &&& d)
  else if i < 32 then (d &&& b) ||| (notW d &&& c)
  else if i < 48 then b ^^^ c ^^^ d
  else c ^^^ (b ||| notW d)

/-- Message-word index for round `i`. -/
def md5G (i : Nat) : Nat :=
  if i < 16 then i
  else if i < 32 then (5 * i + 1) % 16
  else if i < 48 then (3 * i + 5) % 16
  else (7 * i) % 16

/-- Shift amount for round `i`. -/
def md5Shift (i : Nat) : Nat := md5S.getD (4 * (i / 16) + i % 4) 0

/-- One of the 64 MD5 rounds over state (a, b, c, d). -/
def md5Step (M : List Nat) (st : Nat × Nat × Nat × Nat) (i : Nat) :
    Nat × Nat × Nat × Nat :=
  let a := st.1
  let b := st.2.1
  let c := st.2.2.1
  let d := st.2.2.2
  let f := w32 (md5F i b c d + a + md5K.getD i 0 + M.getD (md5G i) 0)
  (d, w32 (b + rotl f (md5Shift i)), b, c)

/-- Process one 16-word block. -/
def md5Block (st : Nat × Nat × Nat × Nat) (M : List Nat) :
    Nat × Nat × Nat × Nat :=
  let r := (List.range 64).foldl (md5Step M) st
  (w32 (st.1 + r.1), w32 (st.2.1 + r.2.1),
   w32 (st.2.2.1 + r.2.2.1), w32 (st.2.2.2 + r.2.2.2))

/-- MD5 padding: 0x80, zeros to 56 mod 64, then the 64-bit bit length LE. -/
def md5Pad (bytes : List Nat) : List Nat :=
  let len := bytes.length
  let zeros := (56 + 64 - ((len + 1) % 64)) % 64
  let bitLen := (8 * len) % (2 ^ 64)
  bytes ++ [128] ++ List.replicate zeros 0 ++
    (List.range 8).map (fun j => (bitLen >>> (8 * j)) % 256)

/-- Split into `n` chunks of 64 bytes (structural recursion on the count). -/
def chunksN : Nat → List Nat → List (List Nat)
  | 0, _ => []
  | n + 1, l => l.take 64 :: chunksN n (l.drop 64)

/-- The padded message as a list of 64-byte blocks. -/
def md5Blocks (bytes : List Nat) : List (List Nat) :=
  let p := md5Pad bytes
  chunksN (p.length / 64) p

/-- Little-endian 32-bit word `j` of a block. -/
def leWord (bl : List Nat) (j : Nat) : Nat :=
  bl.getD (4 * j) 0 + 256 * bl.getD (4 * j + 1) 0 +
    65536 * bl.getD (4 * j + 2) 0 + 16777216 * bl.getD (4 * j + 3) 0

/-- The 16 words of a 64-byte block. -/
def blockWords (bl : List Nat) : List Nat := (List.range 16).map (leWord bl)

/-- MD5 initial state. -/
def md5Init : Nat × Nat × Nat × Nat :=
  (0x67452301, 0xefcdab89, 0x98badcfe, 0x10325476)

/-- MD5 of a byte sequence as the four state words. -/
def md5Words (bytes : List Nat) : Nat × Nat × Nat × Nat :=
  (md5Blocks bytes).foldl (fun st bl => md5Block st (blockWords bl)) md5Init

/-- A nibble as a lowercase hex character. -/
def hexDigit (n : Nat) : Char := "0123456789abcdef".toList.getD n '0'

/-- A byte as two hex characters. -/
def byteHex (b : Nat) : String := String.mk [hexDigit (b / 16), hexDigit (b % 16)]

/-- A 32-bit word rendered as 8 hex characters, little-endian byte order. -/
def wordHexLE (w : Nat) : String :=
  byteHex (w % 256) ++ byteHex ((w / 256) % 256) ++
    byteHex ((w / 65536) % 256) ++ byteHex ((w / 16777216) % 256)

/-- UTF-8 encoding of one character (Python `str.encode()`). -/
def utf8Bytes (c : Char) : List Nat :=
  let n := c.toNat
  if n < 128 then [n]
  else if n < 2048 then [192 + n / 64, 128 + n % 64]
  else if n < 65536 then [224 + n / 4096, 128 + (n / 64) % 64, 128 + n % 64]
  else [240 + n / 262144, 128 + (n / 4096) % 64, 128 + (n / 64) % 64, 128 + n % 64]

/-- UTF-8 bytes of a string. -/
def strBytes (s : String) : List Nat := s.toList.flatMap utf8Bytes

/-- `hashlib.md5(s.encode()).hexdigest()`. -/
def md5hex (s : String) : String :=
  let r := md5Words (strBytes s)
  wordHexLE r.1 ++ wordHexLE r.2.1 ++ wordHexLE r.2.2.1 ++ wordHexLE r.2.2.2

/-- fetch_news.py `get_cache_key`: `hashlib.md5(text.encode()).hexdigest()[:16]`. -/
def get_cache_key (text : String) : String := strTake (md5hex text) 16


/-! ## Keyword rule sets of fetch_news.py, copied verbatim

`EXCLUDE_PATTERNS`, `HIGH_PRIORITY_KEYWORDS`, `MEDIUM_RULES` drive the primary
classifier `classify_news_priority`; `NEGATIVE_KEYWORDS`,
`GAMING_REQUIRED_KEYWORDS`, `TRAFFIC_IMPACT_KEYWORDS` drive the secondary
Naver-path classifier `is_relevant_news`. -/

/-- fetch_news.py `NEGATIVE_KEYWORDS` (secondary-path exclusion list). -/
def NEGATIVE_KEYWORDS : List String :=
  ["캠페인", "프로모션", "이벤트", "출시", "신제품", "할인", "세일", "팝업", "콜라보",
   "campaign", "promotion", "launch", "sale", "popup", "collaboration",
   "걸그룹", "보이그룹", "아이돌", "콘서트", "앨범", "뮤직비디오", "팬미팅",
   "던킨", "스타벅스", "맥도날드", "버거킹", "엠앤엠", "초콜릿", "커피",
   "패션", "뷰티", "화장품", "의류", "쇼핑"]

/-- fetch_news.py `GAMING_REQUIRED_KEYWORDS` (secondary-path gaming check). -/
def GAMING_REQUIRED_KEYWORDS : List String :=
  ["pubg", "펍지", "배틀그라운드", "크래프톤", "krafton", "bgmi",
   "pmgc", "pmpl", "pcs", "pgc",
   "fps", "fps게임", "fps 게임", "슈터", "shooter",
   "배틀로얄", "battle royale", "배틀 로얄",
   "free fire", "프리파이어", "가레나", "garena",
   "call of duty mobile", "cod mobile", "콜오브듀티 모바일",
   "apex legends mobile", "에이펙스 레전드 모바일",
   "fortnite mobile", "포트나이트 모바일",
   "roblox", "로블록스",
   "fortnite", "포트나이트",
   "apex legends", "에이펙스 레전드", "에이펙스",
   "mobile esports", "모바일 e스포츠", "모바일 이스포츠"]

/-- fetch_news.py `TRAFFIC_IMPACT_KEYWORDS`, an insertion-ordered dict of
category name to keyword list (secondary-path traffic check). -/
def TRAFFIC_IMPACT_KEYWORDS : List (String × List String) :=
  [("disaster", ["지진 발생", "지진 피해", "태풍 상륙", "태풍 피해", "홍수 피해", "폭우 피해",
                 "earthquake hit", "typhoon damage", "flood damage"]),
   ("conflict", ["전쟁 발발", "군사 충돌", "폭탄 테러", "무력 충돌", "미사일 공격",
                 "war outbreak", "military conflict", "bombing", "missile attack"]),
   ("outage", ["인터넷 차단", "통신 장애", "정전 사태", "서비스 장애", "접속 장애",
               "internet shutdown", "network outage", "power outage", "service down"]),
   ("holiday", ["국경일", "공휴일 지정", "연휴 시작", "명절 연휴", "휴일 확정",
                "national holiday", "public holiday announced", "holiday begins"])]

/-- fetch_news.py `HIGH_PRIORITY_KEYWORDS['critical']`. -/
def HIGH_PRIORITY_CRITICAL : List String :=
  ["internet shutdown", "blackout", "power outage", "outage",
   "war", "explosion", "bombing", "attack", "terrorism", "terrorist",
   "earthquake", "flood", "disaster", "emergency", "tsunami", "typhoon",
   "curfew", "protest", "riot", "strike", "unrest",
   "shutdown", "ban", "block", "censorship"]

/-- fetch_news.py `HIGH_PRIORITY_KEYWORDS['countries']`. -/
def HIGH_PRIORITY_COUNTRIES : List String :=
  ["Iraq", "Pakistan", "Turkey", "Russia", "Egypt",
   "Saudi Arabia", "Indonesia", "Hong Kong", "Iran", "Syria",
   "Baghdad", "Karachi", "Istanbul", "Moscow", "Cairo", "Jakarta"]

/-- fetch_news.py `MEDIUM_RULES`, an insertion-ordered dict of category
name to keyword list. -/
def MEDIUM_RULES : List (String × List String) :=
  [("gaming",
    ["PUBG", "pubg mobile", "battlegrounds mobile", "Krafton", "BGMI",
     "PMGC", "PMPL", "pubg esports",
     "Free Fire", "Call of Duty Mobile", "COD Mobile",
     "mobile game revenue", "mobile game update", "game patch",
     "esports tournament", "e-sports championship",
     "펍지", "배틀그라운드", "크래프톤", "모바일게임 매출", "게임 업데이트"]),
   ("holiday",
    ["national holiday", "public holiday", "bank holiday",
     "Eid al-Fitr", "Eid al-Adha", "Christmas Day", "New Year Day",
     "Ramadan begins", "Diwali celebration",
     "국경일", "공휴일", "명절 연휴", "추석", "설날"]),
   ("school",
    ["school holiday", "school vacation", "exam period", "semester break",
     "summer vacation", "winter vacation",
     "방학 시작", "시험 기간", "개학"])]

/-- fetch_news.py `EXCLUDE_PATTERNS` (primary-path exclusion list). -/
def EXCLUDE_PATTERNS : List String :=
  ["광고", "sponsored", "affiliate", "promotion", "프로모션",
   "캠페인", "campaign", "팝업", "popup", "콜라보", "collaboration",
   "출시", "launch", "신제품", "할인", "sale", "세일",
   "협찬", "마케팅", "PPL", "보도자료", "branded content",
   "주식", "증시", "코스피", "코스닥", "나스닥",
   "장중", "장 마감", "장 초반", "마감 지수",
   "주가", "주식시장", "투자자", "기관투자자",
   "증권사", "증권가", "리포트", "리서치센터",
   "실적발표", "분기 실적", "연간 실적",
   "stock price", "earnings", "quarterly earnings", "annual earnings",
   "investor", "투자", "배당", "dividend",
   "펀드", "ETF", "리츠", "재테크", "IPO", "공모주",
   "IR", "conference call",
   "채용", "공채", "수시채용", "채용 공고",
   "신입사원", "경력직", "인재 채용",
   "구인", "구인 공고",
   "hiring", "job opening", "career", "recruitment",
   "career fair", "채용 설명회", "인턴 모집", "공모전",
   "걸그룹", "보이그룹", "아이돌", "idol", "K-pop",
   "콘서트", "concert", "앨범", "album", "뮤직비디오", "팬미팅", "fan meeting",
   "MAMA", "Awards", "시상식", "mourning",
   "드라마", "예능", "시청률", "예능 프로그램", "리얼리티쇼",
   "OTT", "넷플릭스", "디즈니+", "티빙", "웨이브", "쿠팡플레이",
   "Netflix", "Disney+", "OST",
   "열애설", "결별설", "연예계", "연예인 커플", "스캔들",
   "영화제", "레드카펫", "celebrity", "entertainment news", "showbiz",
   "던킨", "스타벅스", "맥도날드", "버거킹", "엠앤엠", "M&M",
   "초콜릿", "커피", "coffee", "음료",
   "패션", "fashion", "뷰티", "beauty", "화장품", "cosmetic",
   "의류", "clothing", "쇼핑", "shopping",
   "자주포", "전차", "미사일", "무기", "군수", "방산", "국방",
   "K9", "K2", "한화에어로", "한화디펜스", "defense contract",
   "military contract", "arms deal", "방위사업",
   "DMZ", "Korean War soldiers", "유해 발굴", "전사자",
   "대통령", "국회", "외교부", "장관", "정상회담", "summit",
   "조약", "treaty", "협정",
   "KT 위즈", "kt wiz", "KT위즈",
   "프로축구", "프로야구", "NBA", "MLB",
   "야구 결과", "축구 결과", "경기 결과",
   "구원투수", "스토브리그", "WAR 전체",
   "분양", "청약", "입주자 모집",
   "전세", "월세", "매매", "전월세",
   "전세가", "매매가", "집값", "아파트 단지",
   "오피스텔", "상가 분양", "오피스 임대",
   "부동산 시장", "부동산 규제",
   "부동산", "real estate", "housing market",
   "오늘의 날씨", "주간 날씨", "기상청",
   "기온", "미세먼지", "체감온도",
   "날씨", "weather forecast", "weekly forecast",
   "레시피", "요리법", "집밥", "간편식",
   "맛집 탐방", "식당 리뷰", "카페 추천",
   "restaurant review", "food blog",
   "맛집", "restaurant", "여행", "travel tip",
   "immigration protest", "hindu protest", "farmer protest"]

/-! ## The two classifiers -/

/-- The MEDIUM stage of `classify_news_priority` (loop over `MEDIUM_RULES`
entries in dict order; the first entry with a matching keyword decides.  In
the source a match whose category name is not one of the three known names
would simply not return; since the dict holds exactly `gaming`, `holiday`,
`school`, falling through to the remaining entries is equivalent).  The final
`[]` case is the function's `return ('low', None, None)` default. -/
def mediumStep : List (String × List String) → String →
    String × Option String × Option String
  | [], _ => ("low", none, none)
  | (cat, kws) :: rest, text =>
    if anyKw kws text then
      if cat = "gaming" then ("medium", some "gaming", some "gaming")
      else if cat = "holiday" then ("medium", some "traffic_impact", some "holiday")
      else if cat = "school" then ("medium", some "traffic_impact", some "school_calendar")
      else mediumStep rest text
    else mediumStep rest text

/-- fetch_news.py `classify_news_priority(title, summary)`
returning `(priority, news_type, auto_category)`.  The second HIGH test is
the source's country loop: a watched country name in the text re-runs the
critical-keyword scan (dead code after the first scan, kept as written). -/
def classify_news_priority (title summary : String) :
    String × Option String × Option String :=
  if anyKw EXCLUDE_PATTERNS (lowerStr (title ++ " " ++ summary)) then
    ("low", none, none)
  else if anyKw HIGH_PRIORITY_CRITICAL (lowerStr (title ++ " " ++ summary)) then
    ("high", some "traffic_impact", none)
  else if anyKw HIGH_PRIORITY_COUNTRIES (lowerStr (title ++ " " ++ summary)) &&
      anyKw HIGH_PRIORITY_CRITICAL (lowerStr (title ++ " " ++ summary)) then
    ("high", some "traffic_impact", none)
  else mediumStep MEDIUM_RULES (lowerStr (title ++ " " ++ summary))

/-- The traffic stage of `is_relevant_news` (loop over
`TRAFFIC_IMPACT_KEYWORDS` in dict order; priority is
`'high' if category in ['disaster', 'conflict', 'outage'] else 'medium'`). -/
def trafficStep : List (String × List String) → String →
    Bool × Option String × Option String × Option String
  | [], _ => (false, none, none, none)
  | (cat, kws) :: rest, text =>
    if anyKw kws text then
      (true, some "traffic_impact", some cat,
       some (if ["disaster", "conflict", "outage"].contains cat then "high" else "medium"))
    else trafficStep rest text

/-- fetch_news.py `is_relevant_news(title, description)` returning
`(is_relevant, news_type, category, priority)` (the secondary, Naver-path
classifier). -/
def is_relevant_news (title description : String) :
    Bool × Option String × Option String × Option String :=
  if anyKw NEGATIVE_KEYWORDS (lowerStr (title ++ " " ++ description)) then
    (false, none, none, none)
  else if anyKw GAMING_REQUIRED_KEYWORDS (lowerStr (title ++ " " ++ description)) then
    (true, some "gaming", some "gaming", some "medium")
  else trafficStep TRAFFIC_IMPACT_KEYWORDS (lowerStr (title ++ " " ++ description))


/-! ## NewsItem records and the RSS pipeline step -/

/-- The dict-shaped news record built by the fetch adapters
(`date, country, continent, title, summary, url, source, category,
category_group, news_type, priority`); fields absent from a given dict are
modelled by their Python-falsy defaults. -/
structure NewsItem where
  date : String := ""
  country : Option String := none
  continent : Option String := none
  title : String := ""
  summary : String := ""
  url : String := ""
  source : String := ""
  category : String := ""
  category_group : String := ""
  news_type : String := ""
  priority : String := ""
deriving DecidableEq

/-- fetch_news.py `map_to_group_category` table `outage_block`. -/
def outage_block : List String :=
  ["internet_shutdown", "tech_outage", "power_outage", "censorship",
   "cyber_attack", "infrastructure_damage"]

/-- fetch_news.py `map_to_group_category` table `social_crisis`. -/
def social_crisis : List String :=
  ["war_conflict", "terrorism_explosion", "natural_disaster",
   "protest_strike", "curfew", "pandemic", "economic"]

/-- fetch_news.py `map_to_group_category` table `seasonal_calendar`. -/
def seasonal_calendar : List String :=
  ["holiday", "school_calendar", "election"]

/-- fetch_news.py `map_to_group_category` table `gaming_competitor`. -/
def gaming_competitor : List String :=
  ["gaming", "competitor_game", "social_trend", "sports_event", "major_event"]

/-- fetch_news.py `map_to_group_category(detail_category)`. -/
def map_to_group_category (detail_category : String) : String :=
  if outage_block.contains detail_category then "outage_block"
  else if social_crisis.contains detail_category then "social_crisis"
  else if seasonal_calendar.contains detail_category then "seasonal_calendar"
  else if gaming_competitor.contains detail_category then "gaming_competitor"
  else "other"

/-- The per-entry classification step of `fetch_news_from_rss` (fetch_news.py
lines 1188-1206): classify the cleaned title/summary, drop LOW-priority
entries, otherwise build the news dict.  `category` and `news_type` fall back
to `'gaming'` via Python truthiness (`auto_category if auto_category else
'gaming'`).  `date`, `url`, `source` are taken from the feed entry; `country`
and `continent` start as `None` (a later loop may fill them from the search
keyword, which only touches those two fields). -/
def rssItemOf (date title summary url source : String) : Option NewsItem :=
  if (classify_news_priority title summary).1 = "low" then none
  else some
    { date := date, country := none, continent := none,
      title := title, summary := summary, url := url, source := source,
      category := pyOr (classify_news_priority title summary).2.2 "gaming",
      news_type := pyOr (classify_news_priority title summary).2.1 "gaming",
      priority := (classify_news_priority title summary).1 }

/-- smart_refine_batch (fetch_news.py lines 611-688) specialized to the run
configuration the spec calls "no refinement adapter configured": no
GROQ/OpenAI/Claude API key and an empty cache.  Under that configuration the
cache-restore loop copies nothing, both AI stages are skipped, and the only
effect on the items is the final loop `if not item.get('category_group'):
item['category_group'] = map_to_group_category(item.get('category', 'other'))`. -/
def smart_refine_batch_no_api (news_items : List NewsItem) : List NewsItem :=
  news_items.map fun item =>
    if item.category_group = "" then
      { item with category_group := map_to_group_category item.category }
    else item

/-- The cache key used by `smart_refine_batch` for both lookup and store
(fetch_news.py lines 628 and 672):
`get_cache_key(item.get('title', '') + item.get('url', ''))`. -/
def refine_cache_key (item : NewsItem) : String :=
  get_cache_key (item.title ++ item.url)

/-! ## Merge / dedup engine and persisted-store access -/

/-- fetch_news.py `remove_duplicates(existing_news, new_news)`:
`existing_urls = {news['url'] for news in existing_news if news.get('url')}`
(so only truthy, i.e. non-empty, URLs enter the set) and
`[news for news in new_news if news.get('url') not in existing_urls]`. -/
def remove_duplicates (existing_news new_news : List NewsItem) : List NewsItem :=
  new_news.filter fun n =>
    !(existing_news.any fun e => (e.url != "") && (e.url == n.url))

/-- The merge performed by `main` (fetch_news.py lines 1868-1872):
`unique_new_news = remove_duplicates(existing_news, all_refined_news);
all_news = existing_news + unique_new_news`. -/
def mergeNews (existing_news new_news : List NewsItem) : List NewsItem :=
  existing_news ++ remove_duplicates existing_news new_news

/-- Modelled from the spec: the identity key of a NewsItem, "defined as the
item's source URL (when present) or a hash of title+summary for items lacking
a URL".  The hash is modelled content-faithfully as the (title, summary) pair
itself, so two items get the same key exactly when the spec's hash inputs
coincide. -/
def identityKeySpec (n : NewsItem) : String ⊕ (String × String) :=
  if n.url = "" then Sum.inr (n.title, n.summary) else Sum.inl n.url

/-- Modelled from the spec: the merge contract of section 4.4 — keep exactly
those new items whose identity key is absent from the persisted set, append
them to the persisted list in order. -/
def mergeSpec (existing_news new_news : List NewsItem) : List NewsItem :=
  existing_news ++ new_news.filter fun n =>
    !(existing_news.any fun e => identityKeySpec e = identityKeySpec n)

/-- Number of items in a list carrying a given url. -/
def countUrl (l : List NewsItem) (u : String) : Nat :=
  l.countP fun n => n.url == u

/-- The possible outcomes of reading the persisted CSV at run start:
the file does not exist, reading it raises (corrupt contents), or it parses
to a list of records. -/
inductive CsvRead where
  | missing
  | failed
  | ok (rows : List NewsItem)

/-- fetch_news.py `load_existing_news()`: `if not NEWS_CSV.exists(): return []`,
and any exception while reading (`except Exception`) also returns `[]`;
otherwise the parsed records are returned. -/
def load_existing_news : CsvRead → List NewsItem
  | .missing => []
  | .failed => []
  | .ok rows => rows

/-! ## fix_category_groups.py -/

namespace FixCategoryGroups

/-- fix_category_groups.py `map_to_group_category`: `None`/empty input maps to
`'other'`; otherwise the input is normalized by `str(...).strip().lower()`
before the (identical) table lookup. -/
def map_to_group_category (detail_category : String) : String :=
  if detail_category = "" then "other"
  else
    let dc := lowerStr (pyStrip detail_category)
    if outage_block.contains dc then "outage_block"
    else if social_crisis.contains dc then "social_crisis"
    else if seasonal_calendar.contains dc then "seasonal_calendar"
    else if gaming_competitor.contains dc then "gaming_competitor"
    else "other"

end FixCategoryGroups

/-! ## clean_news.py -/

/-- clean_news.py `EXCLUDE_KEYWORDS`. -/
def EXCLUDE_KEYWORDS : List String :=
  ["자주포", "전차", "미사일", "무기", "군수", "방산", "국방",
   "K9", "K2", "한화에어로", "한화디펜스", "defense contract",
   "방위사업", "military contract", "arms deal",
   "DMZ", "Korean War soldiers", "유해 발굴", "전사자",
   "MAMA", "Awards", "시상식", "mourning", "Hong Kong tragedy",
   "K-pop", "idol", "아이돌", "걸그룹", "보이그룹",
   "콘서트", "앨범", "팬미팅", "뮤직비디오",
   "concert", "album", "fan meeting",
   "드라마", "예능", "시청률", "예능 프로그램", "리얼리티쇼", "리얼리티 쇼",
   "OTT", "넷플릭스", "디즈니+", "티빙", "웨이브", "쿠팡플레이",
   "Netflix", "Disney+", "OST",
   "열애설", "결별설", "연예계", "연예인 커플", "스캔들",
   "영화제", "레드카펫", "celebrity", "entertainment news", "showbiz",
   "immigration protest", "hindu protest", "farmer protest",
   "PPP", "국민의힘", "더불어민주당", "민주당", "국회",
   "court hearing", "법원", "재판", "탄핵", "대통령",
   "Choo Kyung-ho", "추경호", "이재명", "윤석열", "한동훈",
   "National Assembly", "impeachment", "legislature",
   "한국", "South Korea", "Korea", "북한", "North Korea",
   "서울", "Seoul", "부산", "대구", "인천",
   "네이트", "nate.com",
   "esports", "e-sports", "e스포츠", "이스포츠",
   "PMGC", "PMPL", "PCS", "PGC", "tournament", "토너먼트",
   "대회", "championship", "league", "리그",
   "pro player", "프로선수", "pro team", "프로팀",
   "KT 위즈", "kt wiz", "KT위즈",
   "구원투수", "스토브리그", "WAR 전체", "xportsnews",
   "프로축구", "프로야구", "NBA", "MLB",
   "야구 결과", "축구 결과", "경기 결과",
   "Spike War", "스파이크 워", "배구", "volleyball", "발리볼",
   "Kim Yo-han\x27s serve", "서브 리시브", "receive log",
   "V리그", "V-League",
   "Chip War", "SK하이닉스", "AI 거품론",
   "광고", "협찬", "마케팅", "보도자료", "PPL",
   "캠페인", "campaign", "프로모션", "promotion",
   "팝업", "popup", "콜라보", "collaboration", "신제품",
   "sponsored", "sponsorship", "affiliate",
   "브랜드 캠페인", "브랜드 콜라보", "branded content",
   "증시", "코스피", "코스닥", "나스닥",
   "장중", "장 마감", "장 초반", "마감 지수",
   "주가", "주식시장", "투자자", "기관투자자",
   "증권사", "증권가", "리포트", "리서치센터",
   "실적발표", "분기 실적", "연간 실적",
   "earnings", "quarterly earnings", "annual earnings",
   "IR", "conference call", "배당", "dividend",
   "펀드", "ETF", "리츠", "재테크",
   "stock price", "investor", "IPO", "공모주",
   "채용", "공채", "수시채용", "채용 공고",
   "신입사원", "경력직", "인재 채용",
   "구인", "구인 공고",
   "job opening", "hiring", "recruitment",
   "career fair", "채용 설명회", "인턴 모집", "공모전",
   "분양", "청약", "입주자 모집",
   "전세", "월세", "매매", "전월세",
   "전세가", "매매가", "집값", "아파트 단지",
   "오피스텔", "상가 분양", "오피스 임대",
   "부동산 시장", "부동산 규제",
   "real estate", "housing market",
   "오늘의 날씨", "주간 날씨", "기상청",
   "기온", "미세먼지", "체감온도",
   "weather forecast", "weekly forecast",
   "레시피", "요리법", "집밥", "간편식",
   "맛집 탐방", "식당 리뷰", "카페 추천",
   "restaurant review", "food blog",
   "맛집", "restaurant", "여행", "travel tip",
   "던킨", "스타벅스", "맥도날드", "버거킹", "엠앤엠", "M&M",
   "초콜릿", "커피", "coffee", "음료",
   "패션", "fashion", "뷰티", "beauty", "화장품", "cosmetic",
   "의류", "clothing", "쇼핑", "shopping",
   "대통령", "국회", "외교부", "장관", "정상회담"]

/-- clean_news.py `GAMING_REQUIRED`. -/
def GAMING_REQUIRED : List String :=
  ["pubg", "펍지", "배틀그라운드", "krafton", "크래프톤", "bgmi",
   "pmgc", "pmpl", "pcs", "pgc",
   "fps", "fps게임", "fps 게임", "슈터", "shooter",
   "배틀로얄", "battle royale", "배틀 로얄",
   "free fire", "프리파이어", "가레나", "garena",
   "call of duty mobile", "cod mobile", "콜오브듀티 모바일",
   "apex legends mobile", "에이펙스 레전드 모바일",
   "fortnite mobile", "포트나이트 모바일",
   "roblox", "로블록스",
   "fortnite", "포트나이트",
   "apex legends", "에이펙스 레전드", "에이펙스",
   "mobile esports", "모바일 e스포츠", "모바일 이스포츠"]

/-- clean_news.py `TRAFFIC_REQUIRED`. -/
def TRAFFIC_REQUIRED : List String :=
  ["인터넷 차단", "internet shutdown", "통신 장애", "network outage",
   "정전", "power outage", "지진", "earthquake", "태풍", "typhoon",
   "홍수", "flood", "전쟁", "war", "폭발", "explosion", "테러",
   "공휴일", "holiday", "연휴", "명절", "방학", "시험",
   "시위", "protest", "폭동", "riot", "계엄", "curfew"]

/-- clean_news.py `should_exclude(title, summary)`. -/
def should_exclude (title summary : String) : Bool :=
  anyKw EXCLUDE_KEYWORDS (lowerStr (title ++ " " ++ summary))

/-- clean_news.py `is_valid_gaming_news(title, summary)`. -/
def is_valid_gaming_news (title summary : String) : Bool :=
  anyKw GAMING_REQUIRED (lowerStr (title ++ " " ++ summary))

/-- clean_news.py `is_valid_traffic_news(title, summary)`. -/
def is_valid_traffic_news (title summary : String) : Bool :=
  anyKw TRAFFIC_REQUIRED (lowerStr (title ++ " " ++ summary))

/-- The per-row decision of clean_news.py `clean_news` (lines 207-235):
`none` means the row's index goes to `to_remove` (the row is dropped from the
CSV); `some r` is the row as it is left in the frame, where
`df.at[idx, 'news_type'] = ...` edits show up as a changed `news_type`. -/
def cleanRow (r : NewsItem) : Option NewsItem :=
  if should_exclude r.title r.summary then none
  else if r.news_type = "gaming" && !is_valid_gaming_news r.title r.summary then
    if is_valid_traffic_news r.title r.summary then
      some { r with news_type := "traffic_impact" }
    else none
  else if r.news_type = "" || r.news_type = "nan" then
    if is_valid_gaming_news r.title r.summary then
      some { r with news_type := "gaming" }
    else if is_valid_traffic_news r.title r.summary then
      some { r with news_type := "traffic_impact" }
    else none
  else some r

/-- clean_news.py `clean_news()` restricted to its data transformation: the
row-wise loop fills `to_remove` and edits `news_type`, then `df.drop` keeps
exactly the surviving (possibly edited) rows in order. -/
def clean_news (rows : List NewsItem) : List NewsItem :=
  rows.filterMap cleanRow

set_option maxRecDepth 100000 in
/-! ## Helper lemmas -/

/-- `anyKw` succeeds exactly when some keyword of the list, lower-cased,
occurs in the text. -/
lemma anyKw_eq_true {kws : List String} {text : String} :
    anyKw kws text = true ↔ ∃ p ∈ kws, strHas text (lowerStr p) = true := by
  unfold anyKw
  exact List.any_eq_true

/-- Every outcome of the MEDIUM stage is the default or one of the three
rule-mapped triples. -/
lemma mediumStep_cases (rules : List (String × List String)) (text : String) :
    mediumStep rules text = ("low", none, none) ∨
    mediumStep rules text = ("medium", some "gaming", some "gaming") ∨
    mediumStep rules text = ("medium", some "traffic_impact", some "holiday") ∨
    mediumStep rules text = ("medium", some "traffic_impact", some "school_calendar") := by
  induction rules with
  | nil => exact Or.inl rfl
  | cons hd tl ih =>
    obtain ⟨cat, kws⟩ := hd
    by_cases hm : anyKw kws text = true
    · by_cases hg : cat = "gaming"
      · exact Or.inr (Or.inl (by simp [mediumStep, hm, hg]))
      · by_cases hh : cat = "holiday"
        · exact Or.inr (Or.inr (Or.inl (by simp [mediumStep, hm, hg, hh])))
        · by_cases hs : cat = "school"
          · exact Or.inr (Or.inr (Or.inr (by simp [mediumStep, hm, hg, hh, hs])))
          · simpa [mediumStep, hm, hg, hh, hs] using ih
    · simpa [mediumStep, hm] using ih

/-- Every outcome of the primary classifier is one of five triples. -/
lemma classify_cases (title summary : String) :
    classify_news_priority title summary = ("low", none, none) ∨
    classify_news_priority title summary = ("high", some "traffic_impact", none) ∨
    classify_news_priority title summary = ("medium", some "gaming", some "gaming") ∨
    classify_news_priority title summary = ("medium", some "traffic_impact", some "holiday") ∨
    classify_news_priority title summary =
      ("medium", some "traffic_impact", some "school_calendar") := by
  unfold classify_news_priority
  split_ifs with h1 h2 h3
  · exact Or.inl rfl
  · exact Or.inr (Or.inl rfl)
  · exact Or.inr (Or.inl rfl)
  · rcases mediumStep_cases MEDIUM_RULES (lowerStr (title ++ " " ++ summary)) with
      h | h | h | h
    · exact Or.inl h
    · exact Or.inr (Or.inr (Or.inl h))
    · exact Or.inr (Or.inr (Or.inr (Or.inl h)))
    · exact Or.inr (Or.inr (Or.inr (Or.inr h)))

/-- Every outcome of the traffic stage is the not-relevant quadruple or the
quadruple mapped from one of the rule categories. -/
lemma trafficStep_cases (rules : List (String × List String)) (text : String) :
    trafficStep rules text = (false, none, none, none) ∨
    ∃ cat ∈ rules.map Prod.fst,
      trafficStep rules text =
        (true, some "traffic_impact", some cat,
         some (if ["disaster", "conflict", "outage"].contains cat then "high"
               else "medium")) := by
  induction rules with
  | nil => exact Or.inl rfl
  | cons hd tl ih =>
    obtain ⟨cat, kws⟩ := hd
    by_cases hm : anyKw kws text = true
    · exact Or.inr ⟨cat, by simp, by simp [trafficStep, hm]⟩
    · rcases ih with h | ⟨c, hc, hEq⟩
      · exact Or.inl (by simp [trafficStep, hm, h])
      · exact Or.inr ⟨c, by simp [hc], by simp [trafficStep, hm, hEq]⟩

/-- Every outcome of the secondary classifier. -/
lemma is_relevant_cases (title description : String) :
    is_relevant_news title description = (false, none, none, none) ∨
    is_relevant_news title description =
      (true, some "gaming", some "gaming", some "medium") ∨
    ∃ cat ∈ TRAFFIC_IMPACT_KEYWORDS.map Prod.fst,
      is_relevant_news title description =
        (true, some "traffic_impact", some cat,
         some (if ["disaster", "conflict", "outage"].contains cat then "high"
               else "medium")) := by
  unfold is_relevant_news
  split_ifs with h1 h2
  · exact Or.inl rfl
  · exact Or.inr (Or.inl rfl)
  · rcases trafficStep_cases TRAFFIC_IMPACT_KEYWORDS
        (lowerStr (title ++ " " ++ description)) with h | ⟨c, hc, hEq⟩
    · exact Or.inl h
    · exact Or.inr (Or.inr ⟨c, hc, hEq⟩)

/-! ## Claim C10 -/

/-- C10: if the persisted store file is missing at run start, or reading it
fails for any reason, `load_existing_news` returns the empty list (the run
proceeds as with no prior history instead of aborting); a successful read
returns the parsed rows. -/
theorem c10_read_failure_is_fresh_start :
    load_existing_news CsvRead.missing = [] ∧
    load_existing_news CsvRead.failed = [] ∧
    ∀ rows, load_existing_news (CsvRead.ok rows) = rows :=
  ⟨rfl, rfl, fun _ => rfl⟩

/-! ## Claim C3 -/

/-- C3: on each classification path, exclusion is checked first and always
wins: any text containing (lower-cased) one of that path's exclusion
patterns — `EXCLUDE_PATTERNS` for `classify_news_priority`,
`NEGATIVE_KEYWORDS` for `is_relevant_news` — is classified `(low, None,
None)` resp. `(False, None, None, None)`, regardless of which critical or
inclusion keywords also occur in the same text. -/
theorem c3_exclusion_precedence (title summary : String) :
    ((∃ p ∈ EXCLUDE_PATTERNS,
        strHas (lowerStr (title ++ " " ++ summary)) (lowerStr p) = true) →
      classify_news_priority title summary = ("low", none, none)) ∧
    ((∃ p ∈ NEGATIVE_KEYWORDS,
        strHas (lowerStr (title ++ " " ++ summary)) (lowerStr p) = true) →
      is_relevant_news title summary = (false, none, none, none)) := by
  constructor
  · intro hex
    have ha : anyKw EXCLUDE_PATTERNS (lowerStr (title ++ " " ++ summary)) = true :=
      anyKw_eq_true.mpr hex
    simp [classify_news_priority, ha]
  · intro hex
    have ha : anyKw NEGATIVE_KEYWORDS (lowerStr (title ++ " " ++ summary)) = true :=
      anyKw_eq_true.mpr hex
    simp [is_relevant_news, ha]

set_option maxRecDepth 1000000 in
/-- Witness for C3 at the concrete input title `"campaign"`, summary `""`:
`"campaign"` is in both exclusion lists, and both classifiers return their
excluded outcome. -/
theorem c3_witness :
    ((∃ p ∈ EXCLUDE_PATTERNS,
        strHas (lowerStr ("campaign" ++ " " ++ "")) (lowerStr p) = true) ∧
      classify_news_priority "campaign" "" = ("low", none, none)) ∧
    ((∃ p ∈ NEGATIVE_KEYWORDS,
        strHas (lowerStr ("campaign" ++ " " ++ "")) (lowerStr p) = true) ∧
      is_relevant_news "campaign" "" = (false, none, none, none)) :=
  ⟨⟨by decide, (c3_exclusion_precedence "campaign" "").1 (by decide)⟩,
   ⟨by decide, (c3_exclusion_precedence "campaign" "").2 (by decide)⟩⟩

/-! ## Claim C4 -/

set_option maxRecDepth 1000000 in
/-- Counterexample to C4 as stated: for `P = []` and `N` a single item with
an empty `url`, re-merging the same `N` into `merge(P, N)` does not add zero
items — the second `remove_duplicates` returns the item again, because only
truthy (non-empty) URLs ever enter the dedup key set. -/
theorem c4_counterexample :
    remove_duplicates
        (mergeNews [] [{ title := "t", summary := "s", url := "" }])
        [{ title := "t", summary := "s", url := "" }] ≠ [] := by decide

/-- C4 (amended): merge is idempotent for batches whose items all carry a
non-empty URL: merging the same `N` a second time adds zero items
(`remove_duplicates (merge P N) N = []`).  Items with an empty URL are
re-added on every merge. -/
theorem c4_merge_idempotent_on_urls (P N : List NewsItem)
    (h : ∀ n ∈ N, n.url ≠ "") :
    remove_duplicates (mergeNews P N) N = [] := by
  unfold remove_duplicates
  rw [List.filter_eq_nil_iff]
  intro n hn
  have key : ((mergeNews P N).any fun e => (e.url != "") && (e.url == n.url)) = true := by
    rw [List.any_eq_true]
    by_cases hp : ∃ e, e ∈ P ∧ ((e.url != "") && (e.url == n.url)) = true
    · obtain ⟨e, heP, hq⟩ := hp
      exact ⟨e, by unfold mergeNews; exact List.mem_append_left _ heP, hq⟩
    · refine ⟨n, ?_, ?_⟩
      · unfold mergeNews
        apply List.mem_append_right
        unfold remove_duplicates
        rw [List.mem_filter]
        refine ⟨hn, ?_⟩
        have hfalse : (P.any fun e => (e.url != "") && (e.url == n.url)) = false := by
          rw [List.any_eq_false]
          intro e heP hq
          exact hp ⟨e, heP, hq⟩
        simp [hfalse]
      · have hne := h n hn
        simp [bne_iff_ne, hne]
  simp [key]

/-- Witness for C4 (amended): a singleton batch with a non-empty URL merged
into the empty persisted set; re-merging it adds nothing. -/
theorem c4_witness :
    (∀ n ∈ [({ title := "a", url := "http://a" } : NewsItem)], n.url ≠ "") ∧
    remove_duplicates
        (mergeNews [] [{ title := "a", url := "http://a" }])
        [{ title := "a", url := "http://a" }] = [] :=
  ⟨by decide, c4_merge_idempotent_on_urls [] _ (by decide)⟩

/-! ## Claim C5 -/

set_option maxRecDepth 1000000 in
/-- Counterexample to C5 as stated: the code's identity key is the URL only —
there is no hash-of-title+summary fallback.  For a URL-less item already in
`P`, the spec-side merge (`mergeSpec`, whose key is URL-or-(title, summary))
filters the duplicate out, but the code's merge appends it again. -/
theorem c5_counterexample :
    mergeNews [{ title := "t", summary := "s", url := "" }]
        [{ title := "t", summary := "s", url := "" }] ≠
      mergeSpec [{ title := "t", summary := "s", url := "" }]
        [{ title := "t", summary := "s", url := "" }] := by decide

/-- C5 (amended): the merge result is exactly `P` followed by the items of
`N` kept by `remove_duplicates`; the persisted prefix is unchanged, the kept
items preserve `N`'s relative order (a sublist of `N`), and an item of `N`
is kept iff no item of `P` has the same non-empty URL.  Items lacking a URL
are always kept — the identity key is the URL alone, with no
title+summary-hash fallback. -/
theorem c5_merge_shape (P N : List NewsItem) :
    (mergeNews P N).take P.length = P ∧
    (mergeNews P N).drop P.length = remove_duplicates P N ∧
    (remove_duplicates P N).Sublist N ∧
    ∀ n ∈ N, (n ∈ remove_duplicates P N ↔ ∀ e ∈ P, e.url = "" ∨ e.url ≠ n.url) := by
  refine ⟨?_, ?_, ?_, ?_⟩
  · unfold mergeNews
    exact List.take_left _ _
  · unfold mergeNews
    exact List.drop_left _ _
  · unfold remove_duplicates
    exact List.filter_sublist _
  · intro n hn
    unfold remove_duplicates
    rw [List.mem_filter]
    constructor
    · intro hmem e heP
      by_contra hcon
      push_neg at hcon
      have h1 : e.url ≠ "" := hcon.1
      have h2 : e.url = n.url := hcon.2
      rw [h2] at h1
      have hq : ((e.url != "") && (e.url == n.url)) = true := by
        simp [bne_iff_ne, h1, h2]
      have : (P.any fun e => (e.url != "") && (e.url == n.url)) = true :=
        List.any_eq_true.mpr ⟨e, heP, hq⟩
      have hb := hmem.2
      simp [this] at hb
    · intro hall
      refine ⟨hn, ?_⟩
      have hfalse : (P.any fun e => (e.url != "") && (e.url == n.url)) = false := by
        rw [List.any_eq_false]
        intro e heP hq
        rcases hall e heP with h0 | h0
        · simp [h0] at hq
        · simp [bne_iff_ne, h0] at hq
      simp [hfalse]

set_option maxRecDepth 1000000 in
/-- Witness for C5 (amended): with one persisted item (url `http://a`) and a
batch of two items (urls `http://a`, `http://b`), the membership
characterization is exercised at the first batch item. -/
theorem c5_witness :
    (({ title := "n1", url := "http://a" } : NewsItem) ∈
        [({ title := "n1", url := "http://a" } : NewsItem),
         { title := "n2", url := "http://b" }]) ∧
    ((({ title := "n1", url := "http://a" } : NewsItem) ∈
        remove_duplicates [{ title := "p", url := "http://a" }]
          [{ title := "n1", url := "http://a" }, { title := "n2", url := "http://b" }]) ↔
      ∀ e ∈ [({ title := "p", url := "http://a" } : NewsItem)],
        e.url = "" ∨ e.url ≠ ({ title := "n1", url := "http://a" } : NewsItem).url) :=
  ⟨by decide,
   (c5_merge_shape [{ title := "p", url := "http://a" }]
       [{ title := "n1", url := "http://a" }, { title := "n2", url := "http://b" }]).2.2.2
     { title := "n1", url := "http://a" } (by decide)⟩

/-! ## Claim C6 -/

set_option maxRecDepth 1000000 in
/-- Counterexample to C6 as stated: two items with the same URL fetched in
the same batch, merged against a persisted set that does not contain that
URL — both survive; `remove_duplicates` only dedups against the persisted
set, not within the new batch. -/
theorem c6_counterexample :
    countUrl (mergeNews []
        [{ title := "first", url := "http://x" },
         { title := "second", url := "http://x" }]) "http://x" ≠ 1 := by decide

/-- C6 (amended): for a non-empty URL `u`, a merge leaves the count of items
with URL `u` at the persisted count when `u` is already persisted (all new
copies are dropped, so with exactly one persisted copy exactly one survives),
and otherwise adds the whole batch's count (so two same-URL items in a fresh
batch both survive). -/
theorem c6_merge_url_count (P N : List NewsItem) (u : String) (hu : u ≠ "") :
    ((∃ e ∈ P, e.url = u) → countUrl (mergeNews P N) u = countUrl P u) ∧
    ((¬ ∃ e ∈ P, e.url = u) →
      countUrl (mergeNews P N) u = countUrl P u + countUrl N u) := by
  have hsplit : countUrl (mergeNews P N) u =
      countUrl P u + countUrl (remove_duplicates P N) u := by
    unfold mergeNews countUrl
    rw [List.countP_append]
  constructor
  · rintro ⟨e, heP, heu⟩
    rw [hsplit]
    have hzero : countUrl (remove_duplicates P N) u = 0 := by
      unfold countUrl
      rw [List.countP_eq_zero]
      intro n hnR hnu
      have hnu' : n.url = u := by simpa using hnu
      unfold remove_duplicates at hnR
      rw [List.mem_filter] at hnR
      have hany : (P.any fun e => (e.url != "") && (e.url == n.url)) = true := by
        refine List.any_eq_true.mpr ⟨e, heP, ?_⟩
        simp [bne_iff_ne, heu, hnu', hu]
      have hb := hnR.2
      simp [hany] at hb
    rw [hzero]
    omega
  · intro hno
    rw [hsplit]
    have heq : countUrl (remove_duplicates P N) u = countUrl N u := by
      unfold countUrl remove_duplicates
      rw [List.countP_filter]
      apply List.countP_congr
      intro a haN
      constructor
      · intro hx
        rw [Bool.and_eq_true] at hx
        exact hx.1
      · intro hq
        rw [Bool.and_eq_true]
        refine ⟨hq, ?_⟩
        have hany : (P.any fun e => (e.url != "") && (e.url == a.url)) = false := by
          rw [List.any_eq_false]
          intro e heP hqq
          rw [Bool.and_eq_true, beq_iff_eq] at hqq
          exact hno ⟨e, heP, hqq.2.trans (beq_iff_eq.mp hq)⟩
        simp [hany]
    rw [heq]

set_option maxRecDepth 1000000 in
/-- Witness for C6 (amended), in the shape of scenario D with the URL already
persisted once: both fresh copies are dropped and exactly the one persisted
item with that URL survives. -/
theorem c6_witness :
    (("http://x" : String) ≠ "" ∧
      (∃ e ∈ [({ title := "old", url := "http://x" } : NewsItem)],
        e.url = "http://x")) ∧
    countUrl (mergeNews [{ title := "old", url := "http://x" }]
        [{ title := "first", url := "http://x" },
         { title := "second", url := "http://x" }]) "http://x" =
      countUrl [({ title := "old", url := "http://x" } : NewsItem)] "http://x" :=
  ⟨⟨by decide, by decide⟩,
   (c6_merge_url_count [{ title := "old", url := "http://x" }]
       [{ title := "first", url := "http://x" }, { title := "second", url := "http://x" }]
       "http://x" (by decide)).1 (by decide)⟩

/-! ## Claim C1 -/

set_option maxRecDepth 1000000 in
/-- Counterexample to C1 as stated: the classifier does leave the category
unresolved (`None`), but `fetch_news_from_rss` persists the item with
`category = 'gaming'` — the dict literal uses
`auto_category if auto_category else 'gaming'`, so the category is defaulted
to the concrete category `gaming`, not left unresolved. -/
theorem c1_counterexample :
    (classify_news_priority "Internet shutdown hits Jakarta" "").2.2 = none ∧
    (rssItemOf "2025-01-01" "Internet shutdown hits Jakarta" "" "http://u"
        "Google News").map NewsItem.category = some "gaming" :=
  ⟨by decide, by decide⟩

set_option maxRecDepth 1000000 in
/-- C1 (amended): for the scenario-A input the classifier yields
`(high, traffic_impact, None)`; the RSS pipeline keeps the item (it is not
LOW) and persists it with `news_type = traffic_impact` but with `category`
defaulted to `'gaming'`; with no refinement adapter configured the refine
step only fills `category_group` (to `gaming_competitor`, the group of
`'gaming'`), and the merge appends the item to an empty persisted set. -/
theorem c1_scenario_a :
    classify_news_priority "Internet shutdown hits Jakarta" "" =
      ("high", some "traffic_impact", none) ∧
    ∀ date url source : String,
      rssItemOf date "Internet shutdown hits Jakarta" "" url source =
        some { date := date, title := "Internet shutdown hits Jakarta",
               summary := "", url := url, source := source,
               category := "gaming", news_type := "traffic_impact",
               priority := "high" } ∧
      smart_refine_batch_no_api
          [{ date := date, title := "Internet shutdown hits Jakarta",
             summary := "", url := url, source := source,
             category := "gaming", news_type := "traffic_impact",
             priority := "high" }] =
        [{ date := date, title := "Internet shutdown hits Jakarta",
           summary := "", url := url, source := source,
           category := "gaming", category_group := "gaming_competitor",
           news_type := "traffic_impact", priority := "high" }] ∧
      mergeNews []
          [{ date := date, title := "Internet shutdown hits Jakarta",
             summary := "", url := url, source := source,
             category := "gaming", category_group := "gaming_competitor",
             news_type := "traffic_impact", priority := "high" }] =
        [{ date := date, title := "Internet shutdown hits Jakarta",
           summary := "", url := url, source := source,
           category := "gaming", category_group := "gaming_competitor",
           news_type := "traffic_impact", priority := "high" }] :=
  ⟨by decide, fun date url source => ⟨rfl, rfl, rfl⟩⟩

/-! ## Claim C2 -/

set_option maxRecDepth 1000000 in
/-- Counterexample to C2 as stated: the pipeline constructs and persists an
item whose `news_type` is `traffic_impact` while its `category` is `gaming`
(the classifier's unresolved category for HIGH items is defaulted to
`'gaming'` in the dict literal), so `newsType` and `category` are not
jointly consistent. -/
theorem c2_counterexample :
    (rssItemOf "2025-01-01" "Internet shutdown hits Jakarta" "" "http://u"
        "Google News").map NewsItem.news_type = some "traffic_impact" ∧
    (rssItemOf "2025-01-01" "Internet shutdown hits Jakarta" "" "http://u"
        "Google News").map NewsItem.category = some "gaming" :=
  ⟨by decide, by decide⟩

/-- C2 (amended): joint consistency holds except on the HIGH path of the
RSS pipeline.  Every item the RSS step constructs satisfies: if its
`news_type` is `gaming` then its `category` is `gaming`; if its `news_type`
is `traffic_impact` then either it is a HIGH item carrying the defaulted
`gaming` category, or its category is `holiday` / `school_calendar`.  On the
secondary path a `gaming` news_type always comes with the `gaming` category
and a `traffic_impact` news_type never does. -/
theorem c2_joint_consistency (date title summary url source : String)
    (it : NewsItem)
    (h : rssItemOf date title summary url source = some it) :
    ((it.news_type = "gaming" → it.category = "gaming") ∧
     (it.news_type = "traffic_impact" →
       (it.priority = "high" ∧ it.category = "gaming") ∨
       it.category = "holiday" ∨ it.category = "school_calendar")) ∧
    (∀ t d, ((is_relevant_news t d).2.1 = some "gaming" →
              (is_relevant_news t d).2.2.1 = some "gaming") ∧
            ((is_relevant_news t d).2.1 = some "traffic_impact" →
              (is_relevant_news t d).2.2.1 ≠ some "gaming")) := by
  constructor
  · rcases classify_cases title summary with hc | hc | hc | hc | hc
    · exfalso
      simp [rssItemOf, hc] at h
    · simp [rssItemOf, hc, pyOr] at h
      subst h
      exact ⟨fun hg =>
          absurd (show ("traffic_impact" : String) = "gaming" from hg) (by decide),
        fun _ => Or.inl ⟨rfl, rfl⟩⟩
    · simp [rssItemOf, hc, pyOr] at h
      subst h
      exact ⟨fun _ => rfl, fun ht =>
        absurd (show ("gaming" : String) = "traffic_impact" from ht) (by decide)⟩
    · simp [rssItemOf, hc, pyOr] at h
      subst h
      exact ⟨fun hg =>
          absurd (show ("traffic_impact" : String) = "gaming" from hg) (by decide),
        fun _ => Or.inr (Or.inl rfl)⟩
    · simp [rssItemOf, hc, pyOr] at h
      subst h
      exact ⟨fun hg =>
          absurd (show ("traffic_impact" : String) = "gaming" from hg) (by decide),
        fun _ => Or.inr (Or.inr rfl)⟩
  · intro t d
    rcases is_relevant_cases t d with hr | hr | ⟨c, hcMem, hr⟩
    · rw [hr]
      constructor <;> intro hx <;> simp at hx
    · rw [hr]
      refine ⟨fun _ => rfl, fun hx => ?_⟩
      simp at hx
    · rw [hr]
      refine ⟨fun hx => ?_, fun _ => ?_⟩
      · simp at hx
      · simp only [TRAFFIC_IMPACT_KEYWORDS, List.map_cons, List.map_nil,
          List.mem_cons, List.not_mem_nil, or_false] at hcMem
        rcases hcMem with rfl | rfl | rfl | rfl <;> decide

set_option maxRecDepth 1000000 in
/-- Witness for C2 (amended) at a concrete MEDIUM gaming item. -/
theorem c2_witness :
    rssItemOf "2025-01-01" "PUBG" "" "http://u" "src" =
      some { date := "2025-01-01", title := "PUBG", summary := "",
             url := "http://u", source := "src", category := "gaming",
             news_type := "gaming", priority := "medium" } ∧
    ((({ date := "2025-01-01", title := "PUBG", summary := "",
         url := "http://u", source := "src", category := "gaming",
         news_type := "gaming", priority := "medium" } : NewsItem).news_type =
          "gaming" →
        ({ date := "2025-01-01", title := "PUBG", summary := "",
           url := "http://u", source := "src", category := "gaming",
           news_type := "gaming", priority := "medium" } : NewsItem).category =
          "gaming") ∧
     (({ date := "2025-01-01", title := "PUBG", summary := "",
         url := "http://u", source := "src", category := "gaming",
         news_type := "gaming", priority := "medium" } : NewsItem).news_type =
          "traffic_impact" →
        (({ date := "2025-01-01", title := "PUBG", summary := "",
            url := "http://u", source := "src", category := "gaming",
            news_type := "gaming", priority := "medium" } : NewsItem).priority =
            "high" ∧
          ({ date := "2025-01-01", title := "PUBG", summary := "",
             url := "http://u", source := "src", category := "gaming",
             news_type := "gaming", priority := "medium" } : NewsItem).category =
            "gaming") ∨
        ({ date := "2025-01-01", title := "PUBG", summary := "",
           url := "http://u", source := "src", category := "gaming",
           news_type := "gaming", priority := "medium" } : NewsItem).category =
          "holiday" ∨
        ({ date := "2025-01-01", title := "PUBG", summary := "",
           url := "http://u", source := "src", category := "gaming",
           news_type := "gaming", priority := "medium" } : NewsItem).category =
          "school_calendar")) ∧
    (∀ t d, ((is_relevant_news t d).2.1 = some "gaming" →
              (is_relevant_news t d).2.2.1 = some "gaming") ∧
            ((is_relevant_news t d).2.1 = some "traffic_impact" →
              (is_relevant_news t d).2.2.1 ≠ some "gaming")) :=
  ⟨by decide,
   (c2_joint_consistency "2025-01-01" "PUBG" "" "http://u" "src"
       { date := "2025-01-01", title := "PUBG", summary := "",
         url := "http://u", source := "src", category := "gaming",
         news_type := "gaming", priority := "medium" } (by decide)).1,
   (c2_joint_consistency "2025-01-01" "PUBG" "" "http://u" "src"
       { date := "2025-01-01", title := "PUBG", summary := "",
         url := "http://u", source := "src", category := "gaming",
         news_type := "gaming", priority := "medium" } (by decide)).2⟩

/-! ## Claim C7 -/

set_option maxRecDepth 1000000 in
/-- Counterexample to C7 as stated: for an item lacking a URL the cache key
is still `get_cache_key(title + url)` — i.e. the MD5 of the title alone —
and not the hash of title + summary the claim asserts: the two keys differ
on the concrete item `(title "t", url "", summary "s")`. -/
theorem c7_counterexample :
    refine_cache_key { title := "t", url := "", summary := "s" } ≠
      get_cache_key ("t" ++ "s") := by decide

/-- C7 (amended): the cache lookup/store key is always the content hash of
`title + url`; for an item lacking a URL it degenerates to the hash of the
title alone, so two URL-less items with the same title share a cache key
regardless of their summaries (there is no title+summary fallback). -/
theorem c7_cache_key_ignores_summary (it it' : NewsItem)
    (h : it.url = "") (h' : it'.url = "") (ht : it.title = it'.title) :
    refine_cache_key it = get_cache_key it.title ∧
    refine_cache_key it = refine_cache_key it' := by
  constructor
  · unfold refine_cache_key
    rw [h, String.append_empty]
  · unfold refine_cache_key
    rw [h, h', ht]

/-- Witness for C7 (amended): two URL-less items with equal titles and
different summaries. -/
theorem c7_witness :
    (({ title := "t", summary := "s1", url := "" } : NewsItem).url = "" ∧
     ({ title := "t", summary := "s2", url := "" } : NewsItem).url = "" ∧
     ({ title := "t", summary := "s1", url := "" } : NewsItem).title =
       ({ title := "t", summary := "s2", url := "" } : NewsItem).title) ∧
    (refine_cache_key { title := "t", summary := "s1", url := "" } =
       get_cache_key ({ title := "t", summary := "s1", url := "" } : NewsItem).title ∧
     refine_cache_key { title := "t", summary := "s1", url := "" } =
       refine_cache_key { title := "t", summary := "s2", url := "" }) :=
  ⟨⟨rfl, rfl, rfl⟩,
   c7_cache_key_ignores_summary
     { title := "t", summary := "s1", url := "" }
     { title := "t", summary := "s2", url := "" } rfl rfl rfl⟩

/-! ## Claim C8 -/

set_option maxRecDepth 1000000 in
/-- Counterexample to C8 as stated: the `clean_news` utility deletes a
persisted row outright (its text matches the cleanup exclusion keywords), so
the backfill utility is not the only operation that touches persisted rows. -/
theorem c8_counterexample :
    clean_news [{ title := "Idol group announces comeback concert",
                  news_type := "gaming",
                  category_group := "gaming_competitor" }] = [] := by decide

/-- C8 (amended): the merge itself never alters, removes, or reorders
persisted items (they are the unchanged prefix of the result); but besides
the `categoryGroup` backfill, the repository's `clean_news` utility also
rewrites the persisted store: it deletes rows and edits `news_type`.  Every
row surviving `clean_news` is an input row, unchanged except possibly for
its `news_type` field. -/
theorem c8_persisted_mutation_surface :
    (∀ P N : List NewsItem, (mergeNews P N).take P.length = P) ∧
    (∀ rows : List NewsItem, ∀ r' ∈ clean_news rows,
      ∃ r ∈ rows, r' = r ∨ r' = { r with news_type := r'.news_type }) := by
  constructor
  · intro P N
    unfold mergeNews
    exact List.take_left _ _
  · intro rows r' hr'
    unfold clean_news at hr'
    rw [List.mem_filterMap] at hr'
    obtain ⟨r, hrMem, hcr⟩ := hr'
    refine ⟨r, hrMem, ?_⟩
    unfold cleanRow at hcr
    split_ifs at hcr <;>
      try exact Option.noConfusion hcr
    all_goals
      injection hcr with hcr
      subst hcr
      first
        | exact Or.inl rfl
        | exact Or.inr rfl

set_option maxRecDepth 1000000 in
/-- Witness for C8 (amended) at a row `clean_news` keeps untouched. -/
theorem c8_witness :
    (({ title := "PUBG server issue", news_type := "gaming" } : NewsItem) ∈
        clean_news [{ title := "PUBG server issue", news_type := "gaming" }]) ∧
    ∃ r ∈ [({ title := "PUBG server issue", news_type := "gaming" } : NewsItem)],
      ({ title := "PUBG server issue", news_type := "gaming" } : NewsItem) = r ∨
      ({ title := "PUBG server issue", news_type := "gaming" } : NewsItem) =
        { r with news_type :=
            ({ title := "PUBG server issue", news_type := "gaming" } : NewsItem).news_type } :=
  ⟨by decide,
   c8_persisted_mutation_surface.2
     [{ title := "PUBG server issue", news_type := "gaming" }]
     { title := "PUBG server issue", news_type := "gaming" } (by decide)⟩

/-! ## Claim C9 -/

/-- Counterexample to C9 as stated: the two mappers do not agree on every
input string — the repair script normalizes with `strip().lower()` first,
the core mapper does not, so `"Gaming"` maps to `gaming_competitor` in the
repair script but to `other` in the core. -/
theorem c9_counterexample :
    FixCategoryGroups.map_to_group_category "Gaming" ≠
      map_to_group_category "Gaming" := by decide

/-- C9 (amended): the two mappers agree on every category string that is
already normalized (no surrounding whitespace, no upper-case letters) — in
particular on every category the pipeline itself writes; they differ only on
strings the normalization changes. -/
theorem c9_mappers_agree_on_normalized (s : String)
    (h1 : pyStrip s = s) (h2 : lowerStr s = s) :
    FixCategoryGroups.map_to_group_category s = map_to_group_category s := by
  by_cases hs : s = ""
  · subst hs
    decide
  · unfold FixCategoryGroups.map_to_group_category
    rw [if_neg hs, h1, h2]
    rfl

/-- Witness for C9 (amended) at the normalized category `"gaming"`. -/
theorem c9_witness :
    (pyStrip "gaming" = "gaming" ∧ lowerStr "gaming" = "gaming") ∧
    FixCategoryGroups.map_to_group_category "gaming" = map_to_group_category "gaming" :=
  ⟨⟨by decide, by decide⟩, c9_mappers_agree_on_normalized "gaming" (by decide) (by decide)⟩

/-! ## MD5 validation against the RFC 1321 test vectors -/

set_option maxRecDepth 100000 in
/-- The embedded digest matches `md5("")`. -/
lemma md5hex_empty : md5hex "" = "d41d8cd98f00b204e9800998ecf8427e" := by decide

set_option maxRecDepth 100000 in
/-- The embedded digest matches `md5("abc")`. -/
lemma md5hex_abc : md5hex "abc" = "900150983cd24fb0d6963f7d28e17f72" := by decide
